import Mathlib

/-!
Shallow embedding of the bus Trip Tracking & Occupancy Reconciliation
Engine: the `bus_trips` / `bus_location_history` / `bus_stop_events` /
`student_bus_scans` / `bus_alerts` tables, triggers
(`update_trip_student_count`, `create_bus_alert_feed_item`,
`create_bus_feed_item`) and the driver-app handlers
(`startTrip`, `updateLocation`, `handleArriveAtStop`,
`handleDepartFromStop`, `handleScanStudent`, `handleEndTrip`,
`handleSendAlert`, `fetchTripData`).

Timestamps are modelled as `Nat`, geographic coordinates and other
numeric columns as `Int`/`Option Int`, and free-text payloads (titles,
messages) as opaque `Nat` tokens; none of the verified properties
depends on their contents.
-/

namespace Atlas

/-- `bus_trips.status` column: CHECK (status IN ('scheduled', 'in_progress', 'completed', 'cancelled')). -/
inductive TripStatus
  | scheduled
  | in_progress
  | completed
  | cancelled
deriving DecidableEq

/-- `bus_trips.trip_type` column: CHECK (trip_type IN ('morning', 'afternoon', 'field_trip', 'activity')). -/
inductive TripType
  | morning
  | afternoon
  | field_trip
  | activity
deriving DecidableEq

/-- `student_bus_scans.scan_type` column: CHECK (scan_type IN ('board', 'exit')). -/
inductive ScanType
  | board
  | exit
deriving DecidableEq

/-- `bus_stop_events.event_type` column: CHECK (event_type IN ('arrived', 'departed', 'skipped')). -/
inductive StopEventType
  | arrived
  | departed
  | skipped
deriving DecidableEq

/-- `bus_alerts.severity` column: CHECK (severity IN ('info', 'warning', 'critical')). -/
inductive Severity
  | info
  | warning
  | critical
deriving DecidableEq

/-- `feed_items.priority` values produced by the bus triggers: 'normal', 'high', 'urgent'. -/
inductive Priority
  | normal
  | high
  | urgent
deriving DecidableEq

/-- `bus_alerts.alert_type` column CHECK list. -/
inductive AlertType
  | delay
  | breakdown
  | accident
  | route_change
  | weather
  | emergency
  | student_incident
  | other
deriving DecidableEq

/-- A row of `bus_trips` (the columns the engine reads or writes). -/
structure Trip where
  id : Nat
  school_id : Nat
  route_id : Nat
  bus_id : Nat
  driver_id : Nat
  trip_date : Nat
  trip_type : TripType
  status : TripStatus
  scheduled_start : Option Nat
  actual_start : Option Nat
  actual_end : Option Nat
  current_latitude : Option Int
  current_longitude : Option Int
  current_speed : Option Int
  current_heading : Option Int
  last_location_update : Option Nat
  current_stop_index : Int
  students_on_board : Int
deriving DecidableEq

/-- A row of `bus_location_history` (append-only). -/
structure LocationFix where
  trip_id : Nat
  latitude : Int
  longitude : Int
  speed : Option Int
  heading : Option Int
  accuracy : Option Int
  recorded_at : Nat
deriving DecidableEq

/-- A row of `bus_stop_events` (append-only; the table has no uniqueness constraint). -/
structure StopEvent where
  trip_id : Nat
  stop_id : Nat
  event_type : StopEventType
  scheduled_time : Option Nat
  students_boarded : Nat
  students_exited : Nat
deriving DecidableEq

/-- A row of `student_bus_scans` (append-only; the table has no uniqueness constraint). -/
structure ScanEvent where
  trip_id : Nat
  student_id : Nat
  stop_id : Option Nat
  scan_type : ScanType
deriving DecidableEq

/-- A row of `bus_alerts` (the columns written by `handleSendAlert`). -/
structure Alert where
  id : Nat
  school_id : Nat
  trip_id : Option Nat
  route_id : Option Nat
  alert_type : AlertType
  severity : Severity
  title : Nat
  message : Option Nat
  resolved : Bool
deriving DecidableEq

/-- A row of `feed_items` as written by the bus triggers
(`create_bus_feed_item`, `create_bus_alert_feed_item`). -/
structure FeedItem where
  school_id : Nat
  title : Nat
  body : Option Nat
  priority : Priority
  trip_id : Option Nat
deriving DecidableEq

/-- The database state touched by the engine: one list per table, in insertion order. -/
structure DB where
  bus_trips : List Trip
  bus_location_history : List LocationFix
  bus_stop_events : List StopEvent
  student_bus_scans : List ScanEvent
  bus_alerts : List Alert
  feed_items : List FeedItem
deriving DecidableEq

/-- `CASE WHEN scan_type = 'board' THEN 1 ELSE -1 END` from the
`update_trip_student_count` trigger. -/
def scanDelta (s : ScanEvent) : Int :=
  if s.scan_type = ScanType.board then 1 else -1

/-- `SELECT COALESCE(SUM(CASE WHEN scan_type = 'board' THEN 1 ELSE -1 END), 0)
FROM student_bus_scans WHERE trip_id = tid` from `update_trip_student_count`.
Note: the trigger applies no clamp of any kind to this sum. -/
def tripScanSum (scans : List ScanEvent) (tid : Nat) : Int :=
  ((scans.filter (fun s => decide (s.trip_id = tid))).map scanDelta).sum

/-- `UPDATE bus_trips SET ... WHERE id = tid`: apply `g` to every row whose id matches. -/
def updateTrip (l : List Trip) (tid : Nat) (g : Trip → Trip) : List Trip :=
  l.map (fun t => if t.id = tid then g t else t)

/-- The scan row inserted by `handleScanStudent`. -/
def mkScan (tid sid : Nat) (stop : Option Nat) (ty : ScanType) : ScanEvent :=
  { trip_id := tid, student_id := sid, stop_id := stop, scan_type := ty }

/-- `handleScanStudent` (driver trip screen) plus the `on_student_scan`
AFTER INSERT trigger: unconditionally inserts the scan row, then the
trigger recomputes the trip's `students_on_board` as `tripScanSum` over
the trip's full scan log.  The handler performs no trip-status check and
no duplicate/idempotency check, and the table has no unique constraint. -/
def recordScan (db : DB) (tid sid : Nat) (stop : Option Nat) (ty : ScanType) : DB :=
  { db with
    student_bus_scans := db.student_bus_scans ++ [mkScan tid sid stop ty]
    bus_trips := updateTrip db.bus_trips tid (fun t =>
      { t with students_on_board :=
          tripScanSum (db.student_bus_scans ++ [mkScan tid sid stop ty]) tid }) }

/-- `handleArriveAtStop`: unconditionally inserts an 'arrived' row into
`bus_stop_events`, then sets `current_stop_index := stop.stop_number`
with no comparison against the current value and no check for an
existing 'arrived' or terminal event. -/
def recordArrival (db : DB) (tid stopId : Nat) (sched : Option Nat) (stopNumber : Int) : DB :=
  { db with
    bus_stop_events := db.bus_stop_events ++
      [{ trip_id := tid, stop_id := stopId, event_type := StopEventType.arrived,
         scheduled_time := sched, students_boarded := 0, students_exited := 0 }]
    bus_trips := updateTrip db.bus_trips tid (fun t =>
      { t with current_stop_index := stopNumber }) }

/-- `handleDepartFromStop`: unconditionally inserts a 'departed' row;
no prior-arrival or terminal-exclusivity check exists in the handler or
in the schema. -/
def recordDeparture (db : DB) (tid stopId boarded exited : Nat) : DB :=
  { db with
    bus_stop_events := db.bus_stop_events ++
      [{ trip_id := tid, stop_id := stopId, event_type := StopEventType.departed,
         scheduled_time := none, students_boarded := boarded, students_exited := exited }] }

/-- The telemetry submission shape: what the device hands to
`updateLocation` (an expo-location `LocationObject`).  `client_time` is
the fix's capture timestamp; the handler never reads it. -/
structure FixInput where
  latitude : Int
  longitude : Int
  speed : Option Int
  heading : Option Int
  accuracy : Option Int
  client_time : Nat
deriving DecidableEq

/-- `updateLocation` (driver trip screen): first unconditionally
overwrites the trip's denormalized `current_*` snapshot, stamping
`last_location_update` with the upload wall-clock time `now`
(`new Date().toISOString()`), then appends the fix to
`bus_location_history` (whose `recorded_at` defaults to NOW()).  No
recency comparison is made and `fix.client_time` is never consulted;
the handler also performs no trip-status check. -/
def updateLocation (db : DB) (tid : Nat) (fix : FixInput) (now : Nat) : DB :=
  { db with
    bus_trips := updateTrip db.bus_trips tid (fun t =>
      { t with
        current_latitude := some fix.latitude
        current_longitude := some fix.longitude
        current_speed := fix.speed
        current_heading := fix.heading
        last_location_update := some now })
    bus_location_history := db.bus_location_history ++
      [{ trip_id := tid, latitude := fix.latitude, longitude := fix.longitude,
         speed := fix.speed, heading := fix.heading, accuracy := fix.accuracy,
         recorded_at := now }] }

/-- `handleEndTrip` (driver trip screen): sets `status := 'completed'`
and `actual_end := now` on the trip row and touches nothing else; in
particular it appends no synthetic 'skipped' stop events and performs no
status precondition check. -/
def endTrip (db : DB) (tid now : Nat) : DB :=
  { db with
    bus_trips := updateTrip db.bus_trips tid (fun t =>
      { t with status := TripStatus.completed, actual_end := some now }) }

/-- Error raised when the `UNIQUE(route_id, trip_date, trip_type)`
constraint on `bus_trips` rejects an insert (surfaced to the driver as a
failed start; the spec names it ActiveTripExists). -/
inductive StartTripError
  | ActiveTripExists
deriving DecidableEq

/-- Does any `bus_trips` row (of any status) already hold the key
`(route_id, trip_date, trip_type)`?  This is the predicate the
`UNIQUE(route_id, trip_date, trip_type)` constraint enforces atomically
with the insert. -/
def tripKeyTaken (db : DB) (route date : Nat) (ty : TripType) : Bool :=
  db.bus_trips.any (fun t =>
    decide (t.route_id = route ∧ t.trip_date = date ∧ t.trip_type = ty))

/-- The trip row inserted by `startTrip` on the driver home screen:
`status := 'in_progress'`, `actual_start := now`,
`current_stop_index`/`students_on_board` take their column defaults 0. -/
def newTrip (id school route bus driver date : Nat) (ty : TripType)
    (sched : Option Nat) (now : Nat) : Trip :=
  { id := id, school_id := school, route_id := route, bus_id := bus,
    driver_id := driver, trip_date := date, trip_type := ty,
    status := TripStatus.in_progress, scheduled_start := sched,
    actual_start := some now, actual_end := none,
    current_latitude := none, current_longitude := none,
    current_speed := none, current_heading := none,
    last_location_update := none, current_stop_index := 0,
    students_on_board := 0 }

/-- The feed item the `create_bus_feed_item` trigger inserts when a trip
row is inserted with (or updated to) `status = 'in_progress'`; the bus
and route display strings are opaque tokens here. -/
def startFeedItem (t : Trip) : FeedItem :=
  { school_id := t.school_id, title := 0, body := none,
    priority := Priority.normal, trip_id := some t.id }

/-- `startTrip` (driver home screen): a single INSERT into `bus_trips`
with `status = 'in_progress'`.  The `UNIQUE(route_id, trip_date,
trip_type)` constraint makes the existence check atomic with the
insert: if any row with the same key exists the statement fails and no
row is created; otherwise the row is inserted and the
`create_bus_feed_item` AFTER INSERT trigger adds a trip-started feed
item in the same transaction. -/
def startTrip (db : DB) (id school route bus driver date : Nat) (ty : TripType)
    (sched : Option Nat) (now : Nat) : Except StartTripError DB :=
  if tripKeyTaken db route date ty then
    Except.error StartTripError.ActiveTripExists
  else
    Except.ok { db with
      bus_trips := db.bus_trips ++ [newTrip id school route bus driver date ty sched now]
      feed_items := db.feed_items ++ [startFeedItem (newTrip id school route bus driver date ty sched now)] }

/-- `CASE WHEN severity = 'critical' THEN 'urgent' WHEN severity =
'warning' THEN 'high' ELSE 'normal' END` from `create_bus_alert_feed_item`. -/
def feedPriority (s : Severity) : Priority :=
  match s with
  | Severity.critical => Priority.urgent
  | Severity.warning => Priority.high
  | Severity.info => Priority.normal

/-- The feed item the `create_bus_alert_feed_item` trigger inserts for a
new alert row. -/
def alertFeedItem (a : Alert) : FeedItem :=
  { school_id := a.school_id, title := a.title, body := a.message,
    priority := feedPriority a.severity, trip_id := a.trip_id }

/-- `handleSendAlert` severity choice:
`alertType === 'delay' ? 'info' : 'warning'`. -/
def sendAlertSeverity (ty : AlertType) : Severity :=
  if ty = AlertType.delay then Severity.info else Severity.warning

/-- `handleSendAlert` plus the `on_bus_alert_created` AFTER INSERT
trigger.  The trigger's INSERT INTO `feed_items` runs inside the same
transaction as the alert INSERT (PostgreSQL AFTER ROW trigger), so the
two succeed or fail together: `fanoutOk` models whether the trigger's
feed insert succeeds; when it fails the whole statement aborts and the
database is unchanged.  The returned Bool is whether the call
succeeded.  No trip-status check is performed anywhere on this path. -/
def raiseAlert (db : DB) (a : Alert) (fanoutOk : Bool) : DB × Bool :=
  if fanoutOk then
    ({ db with
        bus_alerts := db.bus_alerts ++ [a]
        feed_items := db.feed_items ++ [alertFeedItem a] }, true)
  else
    (db, false)

/-- `fetchTripData`: the scans fetched for the trip
(`.eq('trip_id', id)`). -/
def tripScans (db : DB) (tid : Nat) : List ScanEvent :=
  db.student_bus_scans.filter (fun s => decide (s.trip_id = tid))

/-- `fetchTripData`: `boardedStudents` is the set of student ids among
the trip's scans with `scan_type === 'board'`; a student's `boarded`
flag is membership in that set.  Exit scans are never consulted. -/
def studentBoarded (scans : List ScanEvent) (sid : Nat) : Bool :=
  scans.any (fun s => decide (s.scan_type = ScanType.board ∧ s.student_id = sid))

/-- The `boarded` flag as displayed for student `sid` on trip `tid`. -/
def studentBoardedOnTrip (db : DB) (tid sid : Nat) : Bool :=
  studentBoarded (tripScans db tid) sid

/-- The scan type recorded when the driver taps the student row:
`handleScanStudent(student, student.boarded ? 'exit' : 'board')`. -/
def tapScanType (db : DB) (tid sid : Nat) : ScanType :=
  if studentBoardedOnTrip db tid sid then ScanType.exit else ScanType.board

/-- `SELECT * FROM bus_trips WHERE id = tid` (first match). -/
def tripById (db : DB) (tid : Nat) : Option Trip :=
  db.bus_trips.find? (fun t => decide (t.id = tid))

/-- The trip's `students_on_board` column, when the trip exists. -/
def tripStudentsOnBoard (db : DB) (tid : Nat) : Option Int :=
  (tripById db tid).map Trip.students_on_board

/-- The trip's `current_stop_index` column, when the trip exists. -/
def tripCurrentStopIndex (db : DB) (tid : Nat) : Option Int :=
  (tripById db tid).map Trip.current_stop_index

/-- The trip's `status` column, when the trip exists. -/
def tripStatus (db : DB) (tid : Nat) : Option TripStatus :=
  (tripById db tid).map Trip.status

/-- Number of 'board' scans in the log for trip `tid`. -/
def boardCount (scans : List ScanEvent) (tid : Nat) : Nat :=
  (scans.filter (fun s => decide (s.trip_id = tid ∧ s.scan_type = ScanType.board))).length

/-- Number of 'exit' scans in the log for trip `tid`. -/
def exitCount (scans : List ScanEvent) (tid : Nat) : Nat :=
  (scans.filter (fun s => decide (s.trip_id = tid ∧ s.scan_type = ScanType.exit))).length

/-- Number of stop events of type `ty` for `(trip, stop)`. -/
def stopEventCount (db : DB) (tid stopId : Nat) (ty : StopEventType) : Nat :=
  (db.bus_stop_events.filter (fun e =>
    decide (e.trip_id = tid ∧ e.stop_id = stopId ∧ e.event_type = ty))).length

/-- A single-trip scenario row used by concrete scenarios below. -/
def mkTrip (id : Nat) (idx onboard : Int) (st : TripStatus) : Trip :=
  { id := id, school_id := 1, route_id := 1, bus_id := 1, driver_id := 1,
    trip_date := 1, trip_type := TripType.morning, status := st,
    scheduled_start := none, actual_start := some 0, actual_end := none,
    current_latitude := none, current_longitude := none,
    current_speed := none, current_heading := none,
    last_location_update := none, current_stop_index := idx,
    students_on_board := onboard }

/-- A database holding exactly one trip row and empty event logs. -/
def oneTripDB (t : Trip) : DB :=
  { bus_trips := [t], bus_location_history := [], bus_stop_events := [],
    student_bus_scans := [], bus_alerts := [], feed_items := [] }

/-- A concrete position fix used in scenarios. -/
def fix1 : FixInput :=
  { latitude := 10, longitude := 20, speed := none, heading := none,
    accuracy := none, client_time := 5 }

/-- Scenario: a single in-progress trip with id 0 and empty logs. -/
def dbInProgress : DB := oneTripDB (mkTrip 0 0 0 TripStatus.in_progress)

/-- Scenario: a single completed trip with id 0 and empty logs. -/
def dbCompleted : DB := oneTripDB (mkTrip 0 0 0 TripStatus.completed)

/-- Scenario: an in-progress trip whose `current_stop_index` is 3. -/
def dbAtStop3 : DB := oneTripDB (mkTrip 0 3 0 TripStatus.in_progress)

/-- Scenario: an in-progress trip whose snapshot holds a fix stamped at
time 1000 with latitude 100. -/
def dbWithSnapshot : DB :=
  oneTripDB { mkTrip 0 0 0 TripStatus.in_progress with
    current_latitude := some 100, current_longitude := some 200,
    last_location_update := some 1000 }

/-- Scenario: a retried fix captured at client time 10 (older than the
snapshot of `dbWithSnapshot`) with latitude 7. -/
def staleFix : FixInput :=
  { latitude := 7, longitude := 8, speed := none, heading := none,
    accuracy := none, client_time := 10 }

/-- Scenario: the alert row `handleSendAlert` builds for a 'delay'. -/
def alert1 : Alert :=
  { id := 1, school_id := 1, trip_id := some 0, route_id := some 1,
    alert_type := AlertType.delay, severity := sendAlertSeverity AlertType.delay,
    title := 3, message := some 4, resolved := false }

/-! ### Helper lemmas -/

/-- `find?` commutes with a per-row update that touches only rows with
the sought id and never changes ids. -/
theorem find?_updateTrip (l : List Trip) (tid : Nat) (g : Trip → Trip)
    (hg : ∀ t, (g t).id = t.id) :
    (updateTrip l tid g).find? (fun t => decide (t.id = tid))
      = (l.find? (fun t => decide (t.id = tid))).map g := by
  induction l with
  | nil => rfl
  | cons t rest ih =>
    by_cases h : t.id = tid
    · simp [updateTrip, List.find?_cons, h, hg]
    · simp only [updateTrip, List.map_cons, List.find?_cons, if_neg h] at *
      simp [h, ih]

/-- `tripById` after an `updateTrip` on the same id. -/
theorem tripById_updateTrip (db : DB) (l2 : List Trip) (tid : Nat) (g : Trip → Trip)
    (hg : ∀ t, (g t).id = t.id)
    (h : l2 = updateTrip db.bus_trips tid g) :
    ({ db with bus_trips := l2 } : DB).bus_trips.find? (fun t => decide (t.id = tid))
      = (tripById db tid).map g := by
  subst h
  exact find?_updateTrip _ _ _ hg

/-- The trigger's signed sum equals board-scan count minus exit-scan
count over the same log. -/
theorem tripScanSum_eq_counts (scans : List ScanEvent) (tid : Nat) :
    tripScanSum scans tid = (boardCount scans tid : Int) - (exitCount scans tid : Int) := by
  induction scans with
  | nil => simp [tripScanSum, boardCount, exitCount]
  | cons s rest ih =>
    have hb : boardCount (s :: rest) tid
        = boardCount rest tid
          + (if s.trip_id = tid ∧ s.scan_type = ScanType.board then 1 else 0) := by
      by_cases h : s.trip_id = tid ∧ s.scan_type = ScanType.board <;>
        simp [boardCount, List.filter_cons, h]
    have he : exitCount (s :: rest) tid
        = exitCount rest tid
          + (if s.trip_id = tid ∧ s.scan_type = ScanType.exit then 1 else 0) := by
      by_cases h : s.trip_id = tid ∧ s.scan_type = ScanType.exit <;>
        simp [exitCount, List.filter_cons, h]
    have hsum : tripScanSum (s :: rest) tid
        = (if s.trip_id = tid then scanDelta s else 0) + tripScanSum rest tid := by
      by_cases h : s.trip_id = tid <;> simp [tripScanSum, List.filter_cons, h]
    rw [hsum, hb, he]
    by_cases h1 : s.trip_id = tid
    · by_cases h2 : s.scan_type = ScanType.board
      · simp only [h1, h2, scanDelta, if_pos, and_self, true_and, if_true]
        have h2e : ¬ (ScanType.board = ScanType.exit) := by decide
        simp only [h2e, if_false, and_false]
        push_cast
        omega
      · have h2x : s.scan_type = ScanType.exit := by
          cases hst : s.scan_type
          · exact absurd hst h2
          · rfl
        simp only [h1, h2x, scanDelta, true_and, and_self, if_true]
        have h2b : ¬ (ScanType.exit = ScanType.board) := by decide
        simp only [h2b, if_false, and_false]
        push_cast
        omega
    · simp only [h1, if_false, false_and]
      simpa using ih

/-- Appending a scan for trip `tid` moves the trigger's sum by that
scan's delta. -/
theorem tripScanSum_append_mk (l : List ScanEvent) (tid sid : Nat)
    (stop : Option Nat) (ty : ScanType) :
    tripScanSum (l ++ [mkScan tid sid stop ty]) tid
      = tripScanSum l tid + scanDelta (mkScan tid sid stop ty) := by
  simp [tripScanSum, List.filter_append, mkScan]

/-- Looking a trip up after `recordScan` yields the old row with
`students_on_board` replaced by the trigger's recomputed sum. -/
theorem tripById_recordScan (db : DB) (tid sid : Nat) (stop : Option Nat) (ty : ScanType) :
    tripById (recordScan db tid sid stop ty) tid
      = (tripById db tid).map (fun t =>
          { t with students_on_board :=
              tripScanSum (db.student_bus_scans ++ [mkScan tid sid stop ty]) tid }) := by
  unfold tripById recordScan
  exact find?_updateTrip _ _ _ (fun t => rfl)

/-! ### Claim theorems -/

/-- Claim C1, counterexample: on the trip of `dbInProgress` a single
'exit' scan with no matching 'board' drives `students_on_board` to −1,
so the claimed invariant `students_on_board ≥ 0` fails. -/
theorem C1_negative_onboard_counterexample :
    tripStudentsOnBoard (recordScan dbInProgress 0 5 none ScanType.exit) 0 = some (-1)
    ∧ ¬ (∀ t ∈ (recordScan dbInProgress 0 5 none ScanType.exit).bus_trips,
          0 ≤ t.students_on_board) := by
  decide

/-- Claim C1, amended: on every scan the trigger recomputes the trip's
`students_on_board` as `count(board events) − count(exit events)` over
the trip's full scan log, with no clamp at 0, so a stray exit drives the
count negative. -/
theorem C1_scan_recount_unclamped (db : DB) (tid sid : Nat) (stop : Option Nat)
    (ty : ScanType) :
    (recordScan db tid sid stop ty).student_bus_scans
      = db.student_bus_scans ++ [mkScan tid sid stop ty]
    ∧ tripStudentsOnBoard (recordScan db tid sid stop ty) tid
      = (tripById db tid).map (fun _ =>
          (boardCount (db.student_bus_scans ++ [mkScan tid sid stop ty]) tid : Int)
            - (exitCount (db.student_bus_scans ++ [mkScan tid sid stop ty]) tid : Int)) := by
  refine ⟨rfl, ?_⟩
  simp only [tripStudentsOnBoard, tripById_recordScan, Option.map_map]
  cases tripById db tid with
  | none => rfl
  | some t => simp [Function.comp, tripScanSum_eq_counts]

/-- Claim C2, counterexample: two successive 'board' scans for the same
student on `dbInProgress` store two scan events and increment
`students_on_board` twice (1 then 2), so the second call is not a
silent no-op. -/
theorem C2_duplicate_board_counterexample :
    ((recordScan (recordScan dbInProgress 0 5 none ScanType.board) 0 5 none
        ScanType.board).student_bus_scans).length = 2
    ∧ tripStudentsOnBoard (recordScan dbInProgress 0 5 none ScanType.board) 0 = some 1
    ∧ tripStudentsOnBoard (recordScan (recordScan dbInProgress 0 5 none ScanType.board)
        0 5 none ScanType.board) 0 = some 2 := by
  decide

/-- Claim C2, amended: `recordScan` performs no idempotency check: a
second call with the same `(trip, student, type)` appends a second
identical scan event and moves `students_on_board` by the same delta
again. -/
theorem C2_duplicate_scan_double_counts (db : DB) (tid sid : Nat) (stop : Option Nat)
    (ty : ScanType) :
    (recordScan (recordScan db tid sid stop ty) tid sid stop ty).student_bus_scans
      = db.student_bus_scans ++ [mkScan tid sid stop ty, mkScan tid sid stop ty]
    ∧ tripStudentsOnBoard (recordScan (recordScan db tid sid stop ty) tid sid stop ty) tid
      = (tripStudentsOnBoard (recordScan db tid sid stop ty) tid).map
          (fun v => v + scanDelta (mkScan tid sid stop ty)) := by
  constructor
  · simp [recordScan]
  · simp only [tripStudentsOnBoard, tripById_recordScan, Option.map_map]
    cases tripById db tid with
    | none => rfl
    | some t =>
      simp only [Option.map_some', Function.comp]
      simp only [recordScan]
      rw [tripScanSum_append_mk]

/-- Claim C3: whenever a non-terminal trip already exists for the same
`(route_id, trip_date, trip_type)` key, `startTrip` fails with
`ActiveTripExists` and creates no second trip; the
`UNIQUE(route_id, trip_date, trip_type)` constraint performs the check
atomically with the insert. -/
theorem C3_startTrip_active_exists (db : DB) (id school route bus driver date : Nat)
    (ty : TripType) (sched : Option Nat) (now : Nat) (t : Trip)
    (ht : t ∈ db.bus_trips) (hroute : t.route_id = route) (hdate : t.trip_date = date)
    (htype : t.trip_type = ty)
    (hst : t.status = TripStatus.scheduled ∨ t.status = TripStatus.in_progress) :
    startTrip db id school route bus driver date ty sched now
      = Except.error StartTripError.ActiveTripExists := by
  have hk : tripKeyTaken db route date ty = true := by
    unfold tripKeyTaken
    rw [List.any_eq_true]
    exact ⟨t, ht, by simp [hroute, hdate, htype]⟩
  unfold startTrip
  rw [hk]
  simp

/-- Claim C3, witness: with the in-progress trip of `dbInProgress`
(key route 1, date 1, morning) already stored, a second `startTrip`
for the same key is rejected. -/
theorem C3_startTrip_active_exists_witness :
    startTrip dbInProgress 9 1 1 1 1 1 TripType.morning none 5
      = Except.error StartTripError.ActiveTripExists :=
  C3_startTrip_active_exists dbInProgress 9 1 1 1 1 1 TripType.morning none 5
    (mkTrip 0 0 0 TripStatus.in_progress) (by decide) rfl rfl rfl (Or.inr rfl)

/-- Claim C4, counterexample: two `recordArrival` calls for the same
`(trip, stop)` store two 'arrived' events with no error, violating the
at-most-one-arrived invariant; and an 'arrived' event is appended even
after a terminal 'departed' event for that stop. -/
theorem C4_duplicate_arrival_counterexample :
    stopEventCount (recordArrival (recordArrival dbInProgress 0 3 none 1) 0 3 none 1)
        0 3 StopEventType.arrived = 2
    ∧ ¬ (stopEventCount (recordArrival (recordArrival dbInProgress 0 3 none 1) 0 3 none 1)
          0 3 StopEventType.arrived ≤ 1)
    ∧ (recordArrival (recordDeparture dbInProgress 0 3 0 0) 0 3 none 1).bus_stop_events.length
        = 2 := by
  decide

/-- Claim C4, amended: the stop-event log enforces no per-stop
invariant: `recordArrival` unconditionally appends an 'arrived' event
(one more each call, never failing with `AlreadyArrived`) and
`recordDeparture` unconditionally appends a 'departed' event, regardless
of what events already exist for that `(trip, stop)`; duplicate
protection exists only in the UI button state. -/
theorem C4_stop_events_append_unconditionally (db : DB) (tid stopId boarded exited : Nat)
    (sched : Option Nat) (n : Int) :
    stopEventCount (recordArrival db tid stopId sched n) tid stopId StopEventType.arrived
      = stopEventCount db tid stopId StopEventType.arrived + 1
    ∧ (recordDeparture db tid stopId boarded exited).bus_stop_events
      = db.bus_stop_events ++
          [{ trip_id := tid, stop_id := stopId, event_type := StopEventType.departed,
             scheduled_time := none, students_boarded := boarded,
             students_exited := exited }] := by
  constructor
  · simp [stopEventCount, recordArrival, List.filter_append]
  · rfl

/-- Claim C5, counterexample: on `dbAtStop3` (current_stop_index = 3)
an arrival at a stop with stop_number 1 drops `current_stop_index` to 1,
so the index is not non-decreasing. -/
theorem C5_stop_index_decreases_counterexample :
    tripCurrentStopIndex dbAtStop3 0 = some 3
    ∧ tripCurrentStopIndex (recordArrival dbAtStop3 0 7 none 1) 0 = some 1
    ∧ ¬ ((3 : Int) ≤ 1) := by
  decide

/-- Claim C5, amended: `recordArrival` sets `current_stop_index` to the
arrived stop's stop_number unconditionally, with no comparison against
the current value, so the index can decrease when the driver arrives at
an earlier stop. -/
theorem C5_arrival_overwrites_stop_index (db : DB) (tid stopId : Nat)
    (sched : Option Nat) (n : Int) :
    tripById (recordArrival db tid stopId sched n) tid
      = (tripById db tid).map (fun t => { t with current_stop_index := n })
    ∧ (recordArrival db tid stopId sched n).bus_stop_events
      = db.bus_stop_events ++
          [{ trip_id := tid, stop_id := stopId, event_type := StopEventType.arrived,
             scheduled_time := sched, students_boarded := 0, students_exited := 0 }] := by
  refine ⟨?_, rfl⟩
  unfold tripById recordArrival
  exact find?_updateTrip _ _ _ (fun t => rfl)

/-- Claim C6, counterexample: on `dbCompleted` (a completed, hence
terminal, trip) a scan write, a telemetry write and a stop-event write
all succeed and mutate state instead of failing with `TripClosed`. -/
theorem C6_closed_trip_writes_counterexample :
    tripStatus dbCompleted 0 = some TripStatus.completed
    ∧ (recordScan dbCompleted 0 5 none ScanType.board).student_bus_scans.length = 1
    ∧ tripStudentsOnBoard (recordScan dbCompleted 0 5 none ScanType.board) 0 = some 1
    ∧ (updateLocation dbCompleted 0 fix1 50).bus_location_history.length = 1
    ∧ (tripById (updateLocation dbCompleted 0 fix1 50) 0).map Trip.current_latitude
        = some (some 10)
    ∧ (recordArrival dbCompleted 0 3 none 1).bus_stop_events.length = 1 := by
  decide

/-- Claim C6, amended: no write path checks the trip's status: even for
a trip whose status is not `in_progress`, scan, telemetry-fix and
stop-event writes all succeed and append to their logs; no `TripClosed`
rejection exists anywhere in the code. -/
theorem C6_writes_ignore_trip_status (db : DB) (tid sid stopId : Nat)
    (stop : Option Nat) (ty : ScanType) (fix : FixInput) (now : Nat)
    (sched : Option Nat) (n : Int) (t : Trip)
    (ht : tripById db tid = some t) (hst : t.status ≠ TripStatus.in_progress) :
    (recordScan db tid sid stop ty).student_bus_scans
      = db.student_bus_scans ++ [mkScan tid sid stop ty]
    ∧ (updateLocation db tid fix now).bus_location_history.length
      = db.bus_location_history.length + 1
    ∧ (recordArrival db tid stopId sched n).bus_stop_events.length
      = db.bus_stop_events.length + 1 :=
  ⟨rfl, by simp [updateLocation], by simp [recordArrival]⟩

/-- Claim C6, witness: the amended theorem applied to the completed trip
of `dbCompleted`. -/
theorem C6_writes_ignore_trip_status_witness :
    (recordScan dbCompleted 0 5 none ScanType.board).student_bus_scans
      = dbCompleted.student_bus_scans ++ [mkScan 0 5 none ScanType.board]
    ∧ (updateLocation dbCompleted 0 fix1 50).bus_location_history.length
      = dbCompleted.bus_location_history.length + 1
    ∧ (recordArrival dbCompleted 0 3 none 1).bus_stop_events.length
      = dbCompleted.bus_stop_events.length + 1 :=
  C6_writes_ignore_trip_status dbCompleted 0 5 3 none ScanType.board fix1 50 none 1
    (mkTrip 0 0 0 TripStatus.completed) (by decide) (by decide)

/-- Claim C7, counterexample: ending the trip of `dbInProgress`, none of
whose stops ever received an arrival, sets `status = completed` but
appends no synthetic 'skipped' event: the stop-event log stays empty. -/
theorem C7_endTrip_no_skip_counterexample :
    tripStatus (endTrip dbInProgress 0 99) 0 = some TripStatus.completed
    ∧ (endTrip dbInProgress 0 99).bus_stop_events = []
    ∧ ¬ (∃ e ∈ (endTrip dbInProgress 0 99).bus_stop_events,
          e.event_type = StopEventType.skipped) := by
  decide

/-- Claim C7, amended: `endTrip` sets `status = completed` and
`actual_end = now` on the trip row (unconditionally, whatever the prior
status) and leaves the stop-event log untouched: no stop is closed with
a synthetic 'skipped' event. -/
theorem C7_endTrip_completes_without_skips (db : DB) (tid now : Nat) :
    tripById (endTrip db tid now) tid
      = (tripById db tid).map (fun t =>
          { t with status := TripStatus.completed, actual_end := some now })
    ∧ (endTrip db tid now).bus_stop_events = db.bus_stop_events := by
  refine ⟨?_, rfl⟩
  unfold tripById endTrip
  exact find?_updateTrip _ _ _ (fun t => rfl)

/-- Claim C8, counterexample: `dbWithSnapshot` holds a snapshot stamped
at time 1000; ingesting `staleFix`, whose capture time 10 is older than
the snapshot, still overwrites the snapshot's coordinates (latitude
100 becomes 7), so a retried out-of-order fix does produce a stale
overwrite. -/
theorem C8_stale_fix_overwrite_counterexample :
    (tripById dbWithSnapshot 0).map Trip.current_latitude = some (some 100)
    ∧ (tripById dbWithSnapshot 0).map Trip.last_location_update = some (some 1000)
    ∧ staleFix.client_time < 1000
    ∧ (tripById (updateLocation dbWithSnapshot 0 staleFix 2000) 0).map Trip.current_latitude
        = some (some 7) := by
  decide

/-- Claim C8, amended: every ingested fix is appended to the immutable
history log (no fix is ever discarded), and the trip's denormalized
snapshot is overwritten unconditionally with the incoming fix's data,
stamped with the upload wall-clock time; the fix's own capture time is
never compared against the stored snapshot time, so stale retried fixes
do overwrite the snapshot. -/
theorem C8_ingest_appends_and_overwrites (db : DB) (tid : Nat) (fix : FixInput)
    (now : Nat) :
    (updateLocation db tid fix now).bus_location_history
      = db.bus_location_history ++
          [{ trip_id := tid, latitude := fix.latitude, longitude := fix.longitude,
             speed := fix.speed, heading := fix.heading, accuracy := fix.accuracy,
             recorded_at := now }]
    ∧ tripById (updateLocation db tid fix now) tid
      = (tripById db tid).map (fun t =>
          { t with
            current_latitude := some fix.latitude
            current_longitude := some fix.longitude
            current_speed := fix.speed
            current_heading := fix.heading
            last_location_update := some now }) := by
  refine ⟨rfl, ?_⟩
  unfold tripById updateLocation
  exact find?_updateTrip _ _ _ (fun t => rfl)

/-- Claim C9, counterexample: with the trip of `dbInProgress`
in_progress, a `raiseAlert` whose feed-item fan-out fails does not
succeed and persists no alert row: the fan-out failure rolls back the
alert insert. -/
theorem C9_alert_rollback_counterexample :
    tripStatus dbInProgress 0 = some TripStatus.in_progress
    ∧ (raiseAlert dbInProgress alert1 false).2 = false
    ∧ (raiseAlert dbInProgress alert1 false).1 = dbInProgress
    ∧ (raiseAlert dbInProgress alert1 false).1.bus_alerts = [] := by
  decide

/-- Claim C9, amended: the alert insert and the feed-item fan-out are
one atomic transaction (the fan-out runs in an AFTER INSERT trigger):
when the fan-out succeeds, `raiseAlert` succeeds and persists both the
alert and the feed item, with no trip-status check anywhere; when the
fan-out fails, the whole statement aborts and the alert is not
persisted. -/
theorem C9_alert_atomic_with_fanout (db : DB) (a : Alert) :
    (raiseAlert db a true).1.bus_alerts = db.bus_alerts ++ [a]
    ∧ (raiseAlert db a true).1.feed_items = db.feed_items ++ [alertFeedItem a]
    ∧ (raiseAlert db a true).2 = true
    ∧ (raiseAlert db a false).1 = db
    ∧ (raiseAlert db a false).2 = false :=
  ⟨rfl, rfl, rfl, rfl, rfl⟩

/-- Claim C10: a student's displayed 'On Bus' flag is derived solely
from the existence of a 'board' scan (recording an exit scan for any
student never changes anyone's flag); consequently a student who
boarded and then exited is still displayed as on board, and tapping
that student records another 'exit' scan rather than a 'board' scan. -/
theorem C10_boarded_ignores_exit_scans (db : DB) (tid sid tid2 sid2 : Nat)
    (stop stop2 : Option Nat) :
    studentBoardedOnTrip (recordScan db tid2 sid2 stop2 ScanType.exit) tid sid
      = studentBoardedOnTrip db tid sid
    ∧ studentBoardedOnTrip
        (recordScan (recordScan db tid sid stop ScanType.board) tid sid stop ScanType.exit)
        tid sid = true
    ∧ tapScanType
        (recordScan (recordScan db tid sid stop ScanType.board) tid sid stop ScanType.exit)
        tid sid = ScanType.exit := by
  have h2 : studentBoardedOnTrip
      (recordScan (recordScan db tid sid stop ScanType.board) tid sid stop ScanType.exit)
      tid sid = true := by
    simp [studentBoardedOnTrip, tripScans, recordScan, studentBoarded,
      List.filter_append, List.any_append, mkScan]
  refine ⟨?_, h2, ?_⟩
  · by_cases hq : tid2 = tid
    · simp [studentBoardedOnTrip, tripScans, recordScan, studentBoarded,
        List.filter_append, List.any_append, mkScan, hq]
    · simp [studentBoardedOnTrip, tripScans, recordScan, studentBoarded,
        List.filter_append, List.any_append, mkScan, hq]
  · simp [tapScanType, h2]

end Atlas
